import Mathlib

/-!
Verification of `src/web_uid_validator.js` (class `WebUIDValidator`).

The module classifies UID values that may arrive as JavaScript numbers or
strings.  We shallowly embed the JavaScript values the module can receive and
the operations its code performs on them:

* JavaScript numbers are modelled as rationals (every finite double is a
  rational; the integers and small fractions exercised here are represented
  exactly) together with `NaN`.  `Infinity`/`-Infinity` and double rounding
  are outside the model; no claim touches them.
* Objects are modelled by their own enumerable string-keyed properties.
  Reference identity (aliasing) is not representable in a value model; the
  only place it could matter, `===` on two objects, is never relied upon by
  any theorem below.
* `parseInt(s, 10)` is modelled exactly: skip leading whitespace, optional
  sign, longest digit prefix, `NaN` when no digit is found.
* The `try`/`catch` containment of `validateConfiguration` is modelled by an
  explicit `Except` body whose error value carries the partially built result,
  mirroring the in-place mutation of `result` in the source: the `catch`
  appends one error to whatever had been accumulated and clears `isValid`.
-/

set_option autoImplicit false

/-- A JavaScript number: a finite value (rational) or NaN. -/
inductive JSNum where
  | val (q : ℚ)
  | nan
  deriving DecidableEq, Repr

/-- A JavaScript value, covering every kind the validator can receive:
numbers, strings, booleans, `null`, `undefined`, and plain objects given by
their own enumerable string-keyed properties. -/
inductive JSValue where
  | num (x : JSNum)
  | str (s : String)
  | boolV (b : Bool)
  | nullV
  | undef
  | objV (fields : List (String × JSValue))
  deriving Repr

/-- The integer-valued JavaScript number `i`. -/
def intV (i : ℤ) : JSValue := JSValue.num (JSNum.val (i : ℚ))

/-- JavaScript `typeof`.  Note `typeof null` is the string for objects. -/
def jsTypeof : JSValue → String
  | JSValue.num _ => "number"
  | JSValue.str _ => "string"
  | JSValue.boolV _ => "boolean"
  | JSValue.nullV => "object"
  | JSValue.undef => "undefined"
  | JSValue.objV _ => "object"

/-- JavaScript `===`.  `NaN` is equal to nothing, values of different types
are never equal, primitives compare by value.  Two object literals compare by
reference in JavaScript; aliasing is not representable in this value model,
and no theorem below depends on the object/object case. -/
def jsStrictEq : JSValue → JSValue → Bool
  | JSValue.num JSNum.nan, _ => false
  | _, JSValue.num JSNum.nan => false
  | JSValue.num (JSNum.val a), JSValue.num (JSNum.val b) => a == b
  | JSValue.str a, JSValue.str b => a == b
  | JSValue.boolV a, JSValue.boolV b => a == b
  | JSValue.nullV, JSValue.nullV => true
  | JSValue.undef, JSValue.undef => true
  | _, _ => false

/-- The ECMAScript WhiteSpace / LineTerminator set used by `String.prototype.trim`
and by `parseInt`: TAB, LF, VT, FF, CR, SP, NBSP, Ogham space, the en/em
spaces, narrow no-break space, medium mathematical space, ideographic space,
LS, PS, and ZWNBSP. -/
def jsIsWhiteSpace (c : Char) : Bool :=
  let n := c.toNat
  n == 9 || n == 10 || n == 11 || n == 12 || n == 13 || n == 32 ||
  n == 160 || n == 0x1680 || (0x2000 ≤ n && n ≤ 0x200A) ||
  n == 0x2028 || n == 0x2029 || n == 0x202F || n == 0x205F ||
  n == 0x3000 || n == 0xFEFF

/-- JavaScript `String.prototype.trim`: strip leading and trailing
whitespace/line terminators. -/
def jsTrim (s : String) : String :=
  String.mk (((s.data.dropWhile jsIsWhiteSpace).reverse.dropWhile jsIsWhiteSpace).reverse)

/-- Value of a list of decimal digit characters. -/
def digitsVal (ds : List Char) : ℕ :=
  ds.foldl (fun n c => 10 * n + (c.toNat - 48)) 0

/-- JavaScript `parseInt(s, 10)`: skip leading whitespace, read an optional
sign, then the longest prefix of decimal digits; `none` (NaN) when that prefix
is empty, otherwise the signed value of the digits.  Trailing characters are
ignored.  (The source only ever calls `parseInt` with radix 10.) -/
def parseInt10 (s : String) : Option ℤ :=
  let cs := s.data.dropWhile jsIsWhiteSpace
  let signAndRest : ℤ × List Char :=
    match cs with
    | '-' :: r => (-1, r)
    | '+' :: r => (1, r)
    | r => (1, r)
  let ds := signAndRest.2.takeWhile Char.isDigit
  if ds.isEmpty then none
  else some (signAndRest.1 * (digitsVal ds : ℤ))

/-- Result of `parseInt` as a JavaScript number: `NaN` on parse failure. -/
def parseIntNum (s : String) : JSNum :=
  match parseInt10 s with
  | none => JSNum.nan
  | some i => JSNum.val (i : ℚ)

/-- Display string of a rational for template literals.  JavaScript renders
integral doubles without a fractional part; the validator only interpolates
values it received, and every theorem below interpolates integral numbers or
strings, so the non-integral branch is unexercised. -/
def ratToDisplay (q : ℚ) : String :=
  if q.den == 1 then toString q.num else toString q

/-- JavaScript `ToString` as used by `parseInt` on non-number arguments and by
the template literals of `validateConfiguration`.  Plain objects render with
the default `Object.prototype.toString`. -/
def jsToString : JSValue → String
  | JSValue.num (JSNum.val q) => ratToDisplay q
  | JSValue.num JSNum.nan => "NaN"
  | JSValue.str s => s
  | JSValue.boolV true => "true"
  | JSValue.boolV false => "false"
  | JSValue.nullV => "null"
  | JSValue.undef => "undefined"
  | JSValue.objV _ => "[object Object]"

/-- Constant `WebUIDValidator.DEFAULT_BOT_UID` (line 10 of the source). -/
def DEFAULT_BOT_UID : ℚ := 12345

/-- Accessor `WebUIDValidator.getDefaultBotUID` (lines 115-117): returns the constant
as a JavaScript number. -/
def getDefaultBotUID : JSValue := JSValue.num (JSNum.val DEFAULT_BOT_UID)

/-- Body of `WebUIDValidator.isBotUser` (lines 19-44), as run inside its
`try`.  Numbers compare with `===` against the constant (so `NaN` is never the
bot); strings are parsed with `parseInt(uid, 10)` and accepted exactly when
the parse is not NaN and equals the constant; all other types fall through to
`false`.  No operation in the body can throw for any modelled value, so the
body never produces an error. -/
def isBotUserBody (uid : JSValue) : Except String Bool :=
  match uid with
  | JSValue.num JSNum.nan => Except.ok false
  | JSValue.num (JSNum.val q) => Except.ok (q == DEFAULT_BOT_UID)
  | JSValue.str s =>
      match parseInt10 s with
      | none => Except.ok false
      | some n => Except.ok (n == (12345 : ℤ))
  | _ => Except.ok false

/-- Function `WebUIDValidator.isBotUser`: the catch-all converts any failure of the
body into `false`. -/
def isBotUser (uid : JSValue) : Bool :=
  match isBotUserBody uid with
  | Except.ok b => b
  | Except.error _ => false

/-- Body of `WebUIDValidator.isValidWebSDKUID` (lines 53-77), as run inside
its `try`: non-number non-string values are invalid; strings are valid iff
non-empty and non-empty after trim; numbers are valid iff
`uid >= 1 && uid <= Math.pow(2, 32) - 1` (both comparisons are false for
`NaN`).  Nothing in the body can throw. -/
def isValidWebSDKUIDBody (uid : JSValue) : Except String Bool :=
  match uid with
  | JSValue.str s => Except.ok (s.length > 0 && (jsTrim s).length > 0)
  | JSValue.num JSNum.nan => Except.ok false
  | JSValue.num (JSNum.val q) => Except.ok (1 ≤ q && q ≤ (4294967295 : ℚ))
  | _ => Except.ok false

/-- Function `WebUIDValidator.isValidWebSDKUID`: the catch-all converts any failure of
the body into `false`. -/
def isValidWebSDKUID (uid : JSValue) : Bool :=
  match isValidWebSDKUIDBody uid with
  | Except.ok b => b
  | Except.error _ => false

/-- Body of `WebUIDValidator.compareUIDs` (lines 87-108), as run inside its
`try`.  Same `typeof` ⇒ `===`; different `typeof` ⇒ each non-number operand is
coerced with `parseInt(·, 10)` after `ToString`, numbers are used as they are,
the result is `false` when either side is NaN and otherwise numeric equality.
Nothing in the body can throw for any modelled value. -/
def compareUIDsBody (uid1 uid2 : JSValue) : Except String Bool :=
  if jsTypeof uid1 == jsTypeof uid2 then
    Except.ok (jsStrictEq uid1 uid2)
  else
    let num1 := match uid1 with
      | JSValue.num x => x
      | v => parseIntNum (jsToString v)
    let num2 := match uid2 with
      | JSValue.num x => x
      | v => parseIntNum (jsToString v)
    match num1, num2 with
    | JSNum.nan, _ => Except.ok false
    | _, JSNum.nan => Except.ok false
    | JSNum.val a, JSNum.val b => Except.ok (a == b)

/-- Function `WebUIDValidator.compareUIDs`: the catch-all converts any failure of the
body into `false`. -/
def compareUIDs (uid1 uid2 : JSValue) : Bool :=
  match compareUIDsBody uid1 uid2 with
  | Except.ok b => b
  | Except.error _ => false

/-- Result record of `validateConfiguration` (lines 126-131 of the source). -/
structure ValidationResult where
  isValid : Bool
  errors : List String
  warnings : List String
  config : JSValue

/-- Own enumerable properties picked up by the object spread `{ ...config }`
(line 130).  Objects contribute their fields, strings contribute their
indexed characters, and the remaining primitives contribute nothing. -/
def jsSpread : JSValue → List (String × JSValue)
  | JSValue.objV fields => fields
  | JSValue.str s =>
      (List.range s.data.length).zip s.data |>.map
        (fun p => (toString p.1, JSValue.str (String.mk [p.2])))
  | _ => []

/-- TypeError message raised by the `in` operator on a non-object. -/
def inOperatorErrMsg : String :=
  "Cannot use in operator to search for a property in a non-object"

/-- The JavaScript `in` operator (`"botUid" in config`): property lookup on an
object, a TypeError on any primitive. -/
def jsHasProp (v : JSValue) (k : String) : Except String Bool :=
  match v with
  | JSValue.objV fields => Except.ok (fields.any (fun p => p.1 == k))
  | _ => Except.error inOperatorErrMsg

/-- Property access `config.botUid`.  In the source it is only reached after
the `in` operator succeeded, hence on an object; absent keys give
`undefined`. -/
def jsGetProp (v : JSValue) (k : String) : JSValue :=
  match v with
  | JSValue.objV fields =>
      match fields.find? (fun p => p.1 == k) with
      | some p => p.2
      | none => JSValue.undef
  | _ => JSValue.undef

/-- Field name of the bot UID entry. -/
def botUidKey : String := "botUid"

/-- Field name of the user UID entry. -/
def uidKey : String := "uid"

/-- Error message `无效的botUid: ${config.botUid}` (line 137). -/
def invalidBotUidMsg (v : JSValue) : String := "无效的botUid: " ++ jsToString v

/-- Error message `无效的uid: ${config.uid}` (line 152). -/
def invalidUidMsg (v : JSValue) : String := "无效的uid: " ++ jsToString v

/-- Warning message of lines 142-144. -/
def botUidWarnMsg (v : JSValue) : String :=
  "botUid不是预期的Bot UID: " ++ jsToString v ++ " (预期: " ++
    jsToString getDefaultBotUID ++ ")"

/-- Error message `配置验证异常: ${error.message}` (line 157). -/
def configExcMsg (e : String) : String := "配置验证异常: " ++ e

/-- The `botUid` block of `validateConfiguration` (lines 135-147), threading
the mutable `result`: an `error` outcome carries the result as mutated so far
together with the thrown message, exactly what the `catch` observes. -/
def checkBotUid (config : JSValue) (r : ValidationResult) :
    Except (ValidationResult × String) ValidationResult :=
  match jsHasProp config botUidKey with
  | Except.error e => Except.error (r, e)
  | Except.ok false => Except.ok r
  | Except.ok true =>
      let v := jsGetProp config botUidKey
      if ! isValidWebSDKUID v then
        Except.ok { r with errors := r.errors ++ [invalidBotUidMsg v], isValid := false }
      else if ! isBotUser v then
        Except.ok { r with warnings := r.warnings ++ [botUidWarnMsg v] }
      else
        Except.ok r

/-- The `uid` block of `validateConfiguration` (lines 150-155). -/
def checkUid (config : JSValue) (r : ValidationResult) :
    Except (ValidationResult × String) ValidationResult :=
  match jsHasProp config uidKey with
  | Except.error e => Except.error (r, e)
  | Except.ok false => Except.ok r
  | Except.ok true =>
      let v := jsGetProp config uidKey
      if ! isValidWebSDKUID v then
        Except.ok { r with errors := r.errors ++ [invalidUidMsg v], isValid := false }
      else
        Except.ok r

/-- The `try` block of `validateConfiguration` (lines 133-155): both field
checks in order. -/
def validateBody (config : JSValue) (r : ValidationResult) :
    Except (ValidationResult × String) ValidationResult :=
  match checkBotUid config r with
  | Except.error e => Except.error e
  | Except.ok r1 => checkUid config r1

/-- The `result` object as initialised on lines 126-131: valid, no messages,
and a shallow copy `{ ...config }` of the input. -/
def vcBase (config : JSValue) : ValidationResult :=
  { isValid := true, errors := [], warnings := [], config := JSValue.objV (jsSpread config) }

/-- Function `WebUIDValidator.validateConfiguration` (lines 125-162): run the body on
the freshly initialised result; the `catch` (lines 156-159) appends one error
built from the thrown message to the result as mutated so far and clears the
validity flag.  The result is returned in every case. -/
def validateConfiguration (config : JSValue) : ValidationResult :=
  match validateBody config (vcBase config) with
  | Except.ok r => r
  | Except.error (r, e) =>
      { r with isValid := false, errors := r.errors ++ [configExcMsg e] }


/-- C2: for every integer `u`, `isValidWebSDKUID(u)` returns true if and only
if `1 <= u <= 2^32 - 1`; in particular `isValidWebSDKUID(0) = false` and
`isValidWebSDKUID(2^32) = false`. -/
theorem c2_isValidWebSDKUID_int_range :
    (∀ i : ℤ, isValidWebSDKUID (intV i) = true ↔ 1 ≤ i ∧ i ≤ 2 ^ 32 - 1) ∧
    isValidWebSDKUID (intV 0) = false ∧
    isValidWebSDKUID (intV (2 ^ 32)) = false := by
  refine ⟨fun i => ?_, by decide, by decide⟩
  simp only [isValidWebSDKUID, isValidWebSDKUIDBody, intV, Bool.and_eq_true,
    decide_eq_true_eq]
  constructor
  · rintro ⟨h1, h2⟩
    refine ⟨by exact_mod_cast h1, ?_⟩
    have h3 : i ≤ (4294967295 : ℤ) := by exact_mod_cast h2
    omega
  · rintro ⟨h1, h2⟩
    refine ⟨by exact_mod_cast h1, ?_⟩
    have h3 : i ≤ (4294967295 : ℤ) := by omega
    exact_mod_cast h3

/-- C3: for every string `s`, `isValidWebSDKUID(s)` returns true iff `s` is
non-empty and its whitespace-trimmed form is non-empty; the empty string and
whitespace-only strings return false. -/
theorem c3_isValidWebSDKUID_string :
    (∀ s : String,
      isValidWebSDKUID (JSValue.str s) = true ↔
        0 < s.length ∧ 0 < (jsTrim s).length) ∧
    isValidWebSDKUID (JSValue.str ("")) = false ∧
    isValidWebSDKUID (JSValue.str ("   ")) = false := by
  refine ⟨fun s => ?_, by decide, by decide⟩
  simp [isValidWebSDKUID, isValidWebSDKUIDBody]

/-- C10: `compareUIDs` is not transitive: with `a = "012345"`, `b = 12345`,
`c = "12345"`, the two cross-kind pairs compare equal (each side parses to the
integer 12345) while the same-kind string pair compares unequal under strict
string equality. -/
theorem c10_compareUIDs_not_transitive :
    compareUIDs (JSValue.str ("012345")) (intV 12345) = true ∧
    compareUIDs (intV 12345) (JSValue.str ("12345")) = true ∧
    compareUIDs (JSValue.str ("012345")) (JSValue.str ("12345")) = false := by
  decide

/-- C6 counterexample: the number `1.5` (`mkRat 3 2`) is of kind neither
Integer nor String — its value is not integral (`den ≠ 1`) and it is not a
string — yet `isValidWebSDKUID` returns `true` for it, because the source
only tests `typeof uid === "number"` and `1 <= 1.5 <= 2^32 - 1` holds. -/
theorem c6_counterexample :
    isValidWebSDKUID (JSValue.num (JSNum.val (mkRat 3 2))) = true ∧
    (mkRat 3 2).den ≠ 1 := by
  decide

/-- C6 (amended): for every input whose runtime type is neither number nor
string — boolean, object, null, undefined — and for the number NaN,
`isValidWebSDKUID` returns false.  (Non-integral finite numbers such as 1.5
fall under the number rule and are accepted when in range, so they are not
rejected.) -/
theorem c6_non_number_non_string_invalid :
    (∀ b : Bool, isValidWebSDKUID (JSValue.boolV b) = false) ∧
    isValidWebSDKUID JSValue.nullV = false ∧
    isValidWebSDKUID JSValue.undef = false ∧
    (∀ fields : List (String × JSValue), isValidWebSDKUID (JSValue.objV fields) = false) ∧
    isValidWebSDKUID (JSValue.num JSNum.nan) = false := by
  exact ⟨fun b => rfl, rfl, rfl, fun fields => rfl, rfl⟩

/-- Boolean form of integer-cast injectivity into the rationals, shared by the
comparison claims. -/
theorem intCast_beq (a b : ℤ) : ((a : ℚ) == (b : ℚ)) = (a == b) := by
  rw [Bool.eq_iff_iff]
  simp [beq_iff_eq]

/-- Reduction of `compareUIDs` on a number and a string: the types differ, so
the string side goes through `parseInt` and the number side is used as is. -/
theorem compareUIDs_num_str (x : JSNum) (s : String) :
    compareUIDs (JSValue.num x) (JSValue.str s) =
      (match x, parseIntNum s with
       | JSNum.nan, _ => false
       | _, JSNum.nan => false
       | JSNum.val a, JSNum.val b => (a == b)) := by
  cases hp : parseIntNum s <;> cases x <;>
    simp [compareUIDs, compareUIDsBody, jsToString, jsTypeof, hp]

/-- Reduction of `compareUIDs` on a string and a number (mirror image). -/
theorem compareUIDs_str_num (s : String) (x : JSNum) :
    compareUIDs (JSValue.str s) (JSValue.num x) =
      (match parseIntNum s, x with
       | JSNum.nan, _ => false
       | _, JSNum.nan => false
       | JSNum.val a, JSNum.val b => (a == b)) := by
  cases hp : parseIntNum s <;> cases x <;>
    simp [compareUIDs, compareUIDsBody, jsToString, jsTypeof, hp]

/-- C1: same-kind pairs compare by strict value equality with no coercion;
cross-kind int/string pairs coerce through the base-10 parse, yield false on a
failed parse and integer equality otherwise; and the four quoted examples
hold. -/
theorem c1_compareUIDs_spec :
    (∀ s1 s2 : String,
      compareUIDs (JSValue.str s1) (JSValue.str s2) = (s1 == s2)) ∧
    (∀ i1 i2 : ℤ, compareUIDs (intV i1) (intV i2) = (i1 == i2)) ∧
    (∀ (i : ℤ) (s : String),
      compareUIDs (intV i) (JSValue.str s) =
        (match parseInt10 s with
         | none => false
         | some j => (i == j)) ∧
      compareUIDs (JSValue.str s) (intV i) =
        (match parseInt10 s with
         | none => false
         | some j => (j == i))) ∧
    compareUIDs (intV 12345) (JSValue.str ("12345")) = true ∧
    compareUIDs (intV 12345) (intV 12345) = true ∧
    compareUIDs (JSValue.str ("12345")) (JSValue.str ("12346")) = false ∧
    compareUIDs (JSValue.str ("abc")) (intV 1) = false := by
  refine ⟨fun s1 s2 => rfl, fun i1 i2 => ?_, fun i s => ⟨?_, ?_⟩,
    by decide, by decide, by decide, by decide⟩
  · show ((i1 : ℚ) == (i2 : ℚ)) = (i1 == i2)
    exact intCast_beq i1 i2
  · rw [show intV i = JSValue.num (JSNum.val (i : ℚ)) from rfl, compareUIDs_num_str]
    cases h : parseInt10 s <;> simp [parseIntNum, h, intCast_beq]
  · rw [show intV i = JSValue.num (JSNum.val (i : ℚ)) from rfl, compareUIDs_str_num]
    cases h : parseInt10 s <;> simp [parseIntNum, h, intCast_beq]

/-- C4: `isBotUser(uid)` is true exactly when `uid` is the integer 12345 or a
string whose base-10 parse succeeds with value 12345; failed parses and every
other type give false, as do the five quoted examples. -/
theorem c4_isBotUser_spec :
    (∀ v : JSValue, isBotUser v = true ↔
      v = intV 12345 ∨ ∃ s : String, v = JSValue.str s ∧ parseInt10 s = some 12345) ∧
    isBotUser (intV 12345) = true ∧
    isBotUser (JSValue.str ("12345")) = true ∧
    isBotUser (intV 12346) = false ∧
    isBotUser (JSValue.str ("abc")) = false ∧
    isBotUser JSValue.nullV = false := by
  refine ⟨fun v => ?_, by decide, by decide, by decide, by decide, by decide⟩
  cases v with
  | num x =>
    cases x with
    | val q =>
      simp [isBotUser, isBotUserBody, DEFAULT_BOT_UID, intV, beq_iff_eq]
    | nan => simp [isBotUser, isBotUserBody, intV]
  | str s =>
    cases h : parseInt10 s <;>
      simp [isBotUser, isBotUserBody, h, intV, beq_iff_eq]
  | boolV b => simp [isBotUser, isBotUserBody, intV]
  | nullV => simp [isBotUser, isBotUserBody, intV]
  | undef => simp [isBotUser, isBotUserBody, intV]
  | objV fields => simp [isBotUser, isBotUserBody, intV]

/-- C5: for every string `s`, `isBotUser(s)` agrees with
`compareUIDs(s, getDefaultBotUID())` — both use the same lenient base-10
parse — and the string with trailing garbage is classified as the bot on both
sides. -/
theorem c5_parsing_consistency :
    (∀ s : String, isBotUser (JSValue.str s) = compareUIDs (JSValue.str s) getDefaultBotUID) ∧
    isBotUser (JSValue.str ("12345abc")) = true ∧
    compareUIDs (JSValue.str ("12345abc")) getDefaultBotUID = true := by
  refine ⟨fun s => ?_, by decide, by decide⟩
  rw [show getDefaultBotUID = JSValue.num (JSNum.val DEFAULT_BOT_UID) from rfl,
    compareUIDs_str_num]
  cases h : parseInt10 s with
  | none => simp [isBotUser, isBotUserBody, parseIntNum, h]
  | some n =>
    simp [isBotUser, isBotUserBody, parseIntNum, h, DEFAULT_BOT_UID, beq_iff_eq]
    norm_cast

/-- C7 counterexample: the claim quantifies over every configuration
containing a valid non-bot `botUid`, but `{botUid: 999, uid: -1}` contains
one (999 is SDK-valid and not the bot) and still returns `isValid = false`,
because the invalid `uid` field pushes an error. -/
theorem c7_counterexample :
    isValidWebSDKUID (intV 999) = true ∧
    isBotUser (intV 999) = false ∧
    (validateConfiguration
      (JSValue.objV [(botUidKey, intV 999), (uidKey, intV (-1))])).isValid = false := by
  decide

/-- C7 (amended): for every configuration object containing a `botUid` field
whose value is SDK-valid but not the bot, `validateConfiguration` appends
exactly one warning (the mismatch message) and no error for that field, and
the warning never changes the overall validity flag: the result is valid with
empty errors whenever the `uid` field is absent or SDK-valid, and invalid with
exactly the `uid` error when a present `uid` field is SDK-invalid. -/
theorem c7_botUid_warning_all_configs
    (fields : List (String × JSValue)) (v : JSValue)
    (hhas : jsHasProp (JSValue.objV fields) botUidKey = Except.ok true)
    (hv : jsGetProp (JSValue.objV fields) botUidKey = v)
    (hvalid : isValidWebSDKUID v = true) (hbot : isBotUser v = false) :
    (validateConfiguration (JSValue.objV fields)).warnings = [botUidWarnMsg v] ∧
    ((jsHasProp (JSValue.objV fields) uidKey = Except.ok false ∨
        isValidWebSDKUID (jsGetProp (JSValue.objV fields) uidKey) = true) →
      (validateConfiguration (JSValue.objV fields)).isValid = true ∧
      (validateConfiguration (JSValue.objV fields)).errors = []) ∧
    ((jsHasProp (JSValue.objV fields) uidKey = Except.ok true ∧
        isValidWebSDKUID (jsGetProp (JSValue.objV fields) uidKey) = false) →
      (validateConfiguration (JSValue.objV fields)).isValid = false ∧
      (validateConfiguration (JSValue.objV fields)).errors =
        [invalidUidMsg (jsGetProp (JSValue.objV fields) uidKey)]) := by
  have hr1 : validateBody (JSValue.objV fields) (vcBase (JSValue.objV fields)) =
      checkUid (JSValue.objV fields)
        { isValid := true, errors := [], warnings := [botUidWarnMsg v],
          config := JSValue.objV fields } := by
    unfold validateBody checkBotUid
    rw [hhas]
    simp [hv, hvalid, hbot, vcBase, jsSpread]
  cases hany : fields.any (fun p => p.1 == uidKey) with
  | false =>
    have hres : validateConfiguration (JSValue.objV fields) =
        { isValid := true, errors := [], warnings := [botUidWarnMsg v],
          config := JSValue.objV fields } := by
      unfold validateConfiguration
      rw [hr1]
      unfold checkUid
      have hhu : jsHasProp (JSValue.objV fields) uidKey = Except.ok false := by
        simp [jsHasProp, hany]
      rw [hhu]
    refine ⟨by rw [hres], fun _ => ⟨by rw [hres], by rw [hres]⟩, ?_⟩
    rintro ⟨h1, _⟩
    simp [jsHasProp, hany] at h1
  | true =>
    have hhu : jsHasProp (JSValue.objV fields) uidKey = Except.ok true := by
      simp [jsHasProp, hany]
    cases hvu : isValidWebSDKUID (jsGetProp (JSValue.objV fields) uidKey) with
    | true =>
      have hres : validateConfiguration (JSValue.objV fields) =
          { isValid := true, errors := [], warnings := [botUidWarnMsg v],
            config := JSValue.objV fields } := by
        unfold validateConfiguration
        rw [hr1]
        unfold checkUid
        rw [hhu]
        simp [hvu]
      refine ⟨by rw [hres], fun _ => ⟨by rw [hres], by rw [hres]⟩, ?_⟩
      rintro ⟨_, h2⟩
      exact Bool.noConfusion h2
    | false =>
      have hres : validateConfiguration (JSValue.objV fields) =
          { isValid := false,
            errors := [invalidUidMsg (jsGetProp (JSValue.objV fields) uidKey)],
            warnings := [botUidWarnMsg v], config := JSValue.objV fields } := by
        unfold validateConfiguration
        rw [hr1]
        unfold checkUid
        rw [hhu]
        simp [hvu]
      refine ⟨by rw [hres], ?_, fun _ => ⟨by rw [hres], by rw [hres]⟩⟩
      rintro (h1 | h2)
      · rw [hhu] at h1
        simp at h1
      · exact Bool.noConfusion h2

/-- Witness for the amended C7 at the example from the spec, `botUid = 999`
with no other field. -/
theorem c7_botUid_warning_all_configs_witness :
    (validateConfiguration (JSValue.objV [(botUidKey, intV 999)])).warnings =
      [botUidWarnMsg (intV 999)] ∧
    (validateConfiguration (JSValue.objV [(botUidKey, intV 999)])).isValid = true ∧
    (validateConfiguration (JSValue.objV [(botUidKey, intV 999)])).errors = [] := by
  have h := c7_botUid_warning_all_configs [(botUidKey, intV 999)] (intV 999)
    rfl rfl (by decide) (by decide)
  exact ⟨h.1, (h.2.1 (Or.inl rfl)).1, (h.2.1 (Or.inl rfl)).2⟩

/-- No operation in the body of `isBotUser` can throw, so the body always
succeeds with the value returned by the public function. -/
theorem isBotUserBody_ok (v : JSValue) : isBotUserBody v = Except.ok (isBotUser v) := by
  cases v with
  | num x => cases x <;> rfl
  | str s => cases h : parseInt10 s <;> simp [isBotUserBody, isBotUser, h]
  | boolV b => rfl
  | nullV => rfl
  | undef => rfl
  | objV fields => rfl

/-- No operation in the body of `isValidWebSDKUID` can throw. -/
theorem isValidWebSDKUIDBody_ok (v : JSValue) :
    isValidWebSDKUIDBody v = Except.ok (isValidWebSDKUID v) := by
  cases v with
  | num x => cases x <;> rfl
  | str s => rfl
  | boolV b => rfl
  | nullV => rfl
  | undef => rfl
  | objV fields => rfl

/-- No operation in the body of `compareUIDs` can throw. -/
theorem compareUIDsBody_ok (v w : JSValue) :
    compareUIDsBody v w = Except.ok (compareUIDs v w) := by
  have h : ∃ b, compareUIDsBody v w = Except.ok b := by
    unfold compareUIDsBody
    split
    · exact ⟨_, rfl⟩
    · dsimp only
      cases h1 : (match v with | JSValue.num x => x | v => parseIntNum (jsToString v)) <;>
        cases h2 : (match w with | JSValue.num x => x | v => parseIntNum (jsToString v)) <;>
        exact ⟨_, rfl⟩
  obtain ⟨b, hb⟩ := h
  rw [hb]
  simp [compareUIDs, hb]

/-- C8: total containment of failures.  The three predicate bodies succeed on
every input (so the functions return normally and the `catch` never fires),
and whenever the body of `validateConfiguration` throws, the function still
returns the partially built result with exactly one appended error message and
the validity flag cleared. -/
theorem c8_total_containment :
    (∀ v : JSValue, isBotUserBody v = Except.ok (isBotUser v)) ∧
    (∀ v : JSValue, isValidWebSDKUIDBody v = Except.ok (isValidWebSDKUID v)) ∧
    (∀ v w : JSValue, compareUIDsBody v w = Except.ok (compareUIDs v w)) ∧
    (∀ (config : JSValue) (r : ValidationResult) (e : String),
      validateBody config (vcBase config) = Except.error (r, e) →
      validateConfiguration config =
        { r with isValid := false, errors := r.errors ++ [configExcMsg e] }) := by
  refine ⟨isBotUserBody_ok, isValidWebSDKUIDBody_ok, compareUIDsBody_ok, ?_⟩
  intro config r e h
  unfold validateConfiguration
  rw [h]

/-- Witness for C8: `validateConfiguration(null)` makes the body throw on the
`in` operator, yet the call returns normally: invalid, one error, no warning,
and the (empty) spread copy of the input. -/
theorem c8_total_containment_witness :
    validateConfiguration JSValue.nullV =
      { isValid := false, errors := [configExcMsg inOperatorErrMsg], warnings := [],
        config := JSValue.objV [] } := by
  have h := c8_total_containment.2.2.2 JSValue.nullV (vcBase JSValue.nullV)
    inOperatorErrMsg rfl
  simpa [vcBase, jsSpread] using h

/-- The `botUid` block never touches the `config` field of the result,
whether it returns or throws. -/
theorem checkBotUid_config (c : JSValue) (r : ValidationResult) :
    (∀ r', checkBotUid c r = Except.ok r' → r'.config = r.config) ∧
    (∀ r' e, checkBotUid c r = Except.error (r', e) → r'.config = r.config) := by
  constructor
  · intro r' h
    unfold checkBotUid at h
    split at h
    · exact Except.noConfusion h
    · cases h
      rfl
    · dsimp only at h
      split at h
      · cases h
        rfl
      · split at h <;> cases h <;> rfl
  · intro r' e h
    unfold checkBotUid at h
    split at h
    · cases h
      rfl
    · exact Except.noConfusion h
    · dsimp only at h
      split at h
      · exact Except.noConfusion h
      · split at h <;> exact Except.noConfusion h

/-- The `uid` block never touches the `config` field of the result. -/
theorem checkUid_config (c : JSValue) (r : ValidationResult) :
    (∀ r', checkUid c r = Except.ok r' → r'.config = r.config) ∧
    (∀ r' e, checkUid c r = Except.error (r', e) → r'.config = r.config) := by
  constructor
  · intro r' h
    unfold checkUid at h
    split at h
    · exact Except.noConfusion h
    · cases h
      rfl
    · dsimp only at h
      split at h <;> cases h <;> rfl
  · intro r' e h
    unfold checkUid at h
    split at h
    · cases h
      rfl
    · exact Except.noConfusion h
    · dsimp only at h
      split at h <;> exact Except.noConfusion h

/-- The `config` field of the result of `validateConfiguration` is always the
shallow spread copy of the input, whatever path the body takes. -/
theorem validateConfiguration_config (c : JSValue) :
    (validateConfiguration c).config = JSValue.objV (jsSpread c) := by
  unfold validateConfiguration
  cases hb : validateBody c (vcBase c) with
  | ok r =>
    unfold validateBody at hb
    cases h1 : checkBotUid c (vcBase c) with
    | error p =>
      rw [h1] at hb
      exact Except.noConfusion hb
    | ok r1 =>
      rw [h1] at hb
      have e1 := (checkBotUid_config c (vcBase c)).1 r1 h1
      have e2 := (checkUid_config c r1).1 r hb
      simp [e2, e1, vcBase]
  | error p =>
    obtain ⟨r, e⟩ := p
    unfold validateBody at hb
    cases h1 : checkBotUid c (vcBase c) with
    | error p1 =>
      rw [h1] at hb
      cases hb
      have e1 := (checkBotUid_config c (vcBase c)).2 r e h1
      simp [e1, vcBase]
    | ok r1 =>
      rw [h1] at hb
      have e1 := (checkBotUid_config c (vcBase c)).1 r1 h1
      have e2 := (checkUid_config c r1).2 r e hb
      simp [e2, e1, vcBase]

/-- C9: for every input configuration object, the returned result carries a
shallow copy of it in its `config` field — the same field list, and hence the
same value at every key — and the embedding is a pure function, so the input
is left unmodified. -/
theorem c9_config_shallow_copy :
    (∀ fields : List (String × JSValue),
      (validateConfiguration (JSValue.objV fields)).config = JSValue.objV fields) ∧
    (∀ (fields : List (String × JSValue)) (k : String),
      jsGetProp (validateConfiguration (JSValue.objV fields)).config k =
        jsGetProp (JSValue.objV fields) k) := by
  refine ⟨fun fields => ?_, fun fields k => ?_⟩
  · rw [validateConfiguration_config]
    rfl
  · rw [validateConfiguration_config]
    rfl
